import Mathlib

/-!
Shallow embedding of the AFF workspace storage/sync core: the storage backend
registry, the workspace engine state machine, the cloud blob storage getter,
the flavour providers' createWorkspace, the local-to-cloud transform service,
the cloud revalidation commit step, and the edgeless addImages ingestion path.

Machine integers do not occur on any verified path; byte payloads are modelled
as List Nat and identifiers as String. Fallible TypeScript code (functions that
can throw) is modelled with Option / Except or with explicit outcome fields.
-/

/-- Association lookup modelling a JS object / Map read: first pair whose key
matches, or none. -/
def lookupAssoc {α : Type} (l : List (String × α)) (k : String) : Option α :=
  (l.find? (fun p => p.1 == k)).map (fun p => p.2)

/-- Association update modelling a JS object / Map write: the key is bound to
the new value, any previous binding for it is gone, other bindings are kept. -/
def setAssoc {α : Type} (l : List (String × α)) (k : String) (v : α) :
    List (String × α) :=
  (k, v) :: l.filter (fun p => !(p.1 == k))

/-- WorkspaceMetadata from the data model: {id, flavour}. -/
structure WorkspaceMetadata where
  id : String
  flavour : String
  deriving DecidableEq

/-- DocRecord: {docId, bin} where bin is a CRDT update payload. -/
structure DocRecord where
  docId : String
  bin : List Nat
  deriving DecidableEq

/-- BlobRecord as written through blobStorage.set in createWorkspace:
{key, data, mime}. -/
structure BlobRecord where
  key : String
  data : List Nat
  mime : String
  deriving DecidableEq

/-- The CRDT runtime's encodeStateAsUpdate, over a doc represented by the list
of update payloads applied to it; modelled as concatenation (the runtime is an
opaque external collaborator; only which updates were applied matters here). -/
def encodeStateAsUpdate (applied : List (List Nat)) : List Nat :=
  applied.flatten

/-! ## Storage backend registry (src/unnamed/part_002) -/

/-- The storage implementation classes collected into the registry module:
cloud, idb v1 and idb families. -/
inductive StorageImpl
  | CloudDocStorage
  | CloudBlobStorage
  | CloudAwarenessStorage
  | IndexedDBV1DocStorage
  | IndexedDBV1BlobStorage
  | IndexedDBDocStorage
  | IndexedDBBlobStorage
  | IndexedDBSyncStorage
  | BroadcastChannelAwarenessStorage
  deriving DecidableEq

/-- The JS class name of each implementation (curr.name, the key the reduce in
part_002 stores each constructor under; it coincides with the static
identifier field for every registered class). -/
def StorageImpl.className : StorageImpl → String
  | .CloudDocStorage => "CloudDocStorage"
  | .CloudBlobStorage => "CloudBlobStorage"
  | .CloudAwarenessStorage => "CloudAwarenessStorage"
  | .IndexedDBV1DocStorage => "IndexedDBV1DocStorage"
  | .IndexedDBV1BlobStorage => "IndexedDBV1BlobStorage"
  | .IndexedDBDocStorage => "IndexedDBDocStorage"
  | .IndexedDBBlobStorage => "IndexedDBBlobStorage"
  | .IndexedDBSyncStorage => "IndexedDBSyncStorage"
  | .BroadcastChannelAwarenessStorage => "BroadcastChannelAwarenessStorage"

/-- storages = [...cloud, ...idbv1, ...idb] in the source's order. -/
def storages : List StorageImpl :=
  [.CloudDocStorage, .CloudBlobStorage, .CloudAwarenessStorage,
   .IndexedDBV1DocStorage, .IndexedDBV1BlobStorage,
   .IndexedDBDocStorage, .IndexedDBBlobStorage, .IndexedDBSyncStorage,
   .BroadcastChannelAwarenessStorage]

/-- AvailableStorageImplementations: storages.reduce((acc, curr) =>
acc[curr.name] = curr). -/
def availableStorageImplementations : List (String × StorageImpl) :=
  storages.foldl (fun acc c => setAssoc acc c.className c) []

/-- Outcome of reading AvailableStorageImplementations[name] in JS: either the
registered constructor, or the silently returned undefined value for a key the
object does not have (property access on a missing key does not throw). -/
inductive StorageResolution
  | resolved (impl : StorageImpl)
  | undefinedResult
  deriving DecidableEq

/-- getAvailableStorageImplementations: return AvailableStorageImplementations[name]. -/
def getAvailableStorageImplementations (name : String) : StorageResolution :=
  match lookupAssoc availableStorageImplementations name with
  | some impl => .resolved impl
  | none => .undefinedResult

/-! ## WorkspaceEngine (engine.ts) -/

/-- The worker client handle produced by workerProvider.openWorker; its
frontends are external collaborators, so their content is opaque here. -/
structure WorkerClient where
  docFrontend : Nat
  blobFrontend : Nat
  awarenessFrontend : Nat
  deriving DecidableEq

/-- Errors thrown by WorkspaceEngine: the accessor guard, the double-start
guard, and a propagated failure of the worker-provider call inside start. -/
inductive EngineError
  | notInitialized
  | alreadyStarted
  | workerOpenFailed
  deriving DecidableEq

/-- The mutable fields of a WorkspaceEngine: worker?: WorkerClient and
started = false. -/
structure WorkspaceEngine where
  worker : Option WorkerClient
  started : Bool
  deriving DecidableEq

/-- A freshly constructed engine: no worker handle, not started. -/
def WorkspaceEngine.new : WorkspaceEngine :=
  { worker := none, started := false }

/-- get doc: throw "Engine is not initialized" unless this.worker is set. -/
def WorkspaceEngine.doc (e : WorkspaceEngine) : Except EngineError Nat :=
  match e.worker with
  | none => .error .notInitialized
  | some w => .ok w.docFrontend

/-- get blob: throw "Engine is not initialized" unless this.worker is set. -/
def WorkspaceEngine.blob (e : WorkspaceEngine) : Except EngineError Nat :=
  match e.worker with
  | none => .error .notInitialized
  | some w => .ok w.blobFrontend

/-- get awareness: throw "Engine is not initialized" unless this.worker is set. -/
def WorkspaceEngine.awareness (e : WorkspaceEngine) : Except EngineError Nat :=
  match e.worker with
  | none => .error .notInitialized
  | some w => .ok w.awarenessFrontend

/-- start(): throw "Engine is already started" if this.started; otherwise set
this.started = true first, then call workerProvider.openWorker (openResult =
none models that call throwing) and assign this.worker on success. Returns the
engine state as left by the call together with the thrown error, if any. -/
def WorkspaceEngine.start (e : WorkspaceEngine) (openResult : Option WorkerClient) :
    WorkspaceEngine × Option EngineError :=
  if e.started then
    (e, some .alreadyStarted)
  else
    match openResult with
    | none => ({ e with started := true }, some .workerOpenFailed)
    | some client => ({ e with started := true, worker := some client }, none)

/-! ## CloudBlobStorage.get (src/unnamed/part_001) -/

/-- The blob record CloudBlobStorage.get builds from a response body:
{key, data, mime, size: blob.size, createdAt: last-modified or Date.now()}. -/
structure BlobGetRecord where
  key : String
  data : List Nat
  mime : String
  size : Nat
  createdAt : Nat
  deriving DecidableEq

/-- Modelled from the spec: the HttpConnection in ./http is not under src/.
Per the external blob HTTP interface, a GET either yields a binary body (whose
read can itself fail), a 404-equivalent status mapped to "not found", or the
connection raises a transport failure. -/
inductive HttpFetchResult
  | notFoundStatus
  | okBody (data : List Nat) (mime : String) (lastModified : Option Nat)
  | okUnreadableBody
  | transportFailure
  deriving DecidableEq

/-- Errors CloudBlobStorage.get can propagate: the connection's transport
failure, or the wrapped "blob download error" when reading the body throws. -/
inductive BlobGetError
  | transport
  | downloadError
  deriving DecidableEq

/-- CloudBlobStorage.get: fetch the blob URL; return null on res.status 404;
otherwise read the body into a record inside a try that rethrows a read
failure as "blob download error". -/
def CloudBlobStorage.get (key : String) (now : Nat) (fetched : HttpFetchResult) :
    Except BlobGetError (Option BlobGetRecord) :=
  match fetched with
  | .transportFailure => .error .transport
  | .notFoundStatus => .ok none
  | .okUnreadableBody => .error .downloadError
  | .okBody data mime lastModified =>
      .ok (some { key := key, data := data, mime := mime, size := data.length,
                  createdAt := lastModified.getD now })

/-! ## addImages (src/blocksuite/blocks/src/root-block/edgeless/utils/common.ts) -/

/-- JS String.prototype.startsWith, expressed on the character list so that it
evaluates by kernel reduction. -/
def strStartsWith (s p : String) : Bool :=
  s.data.take p.data.length == p.data

/-- A file handed to addImages: its name, MIME type string and byte size. -/
structure IngestFile where
  name : String
  mimeType : String
  size : Nat
  deriving DecidableEq

/-- Observable outcome of addImages: whether the size-limit toast was shown
and which files ended up ingested as image blocks (the returned block ids are
in bijection with these files). -/
structure AddImagesResult where
  toastShown : Bool
  ingested : List IngestFile
  deriving DecidableEq

/-- addImages: keep only files whose type starts with "image/"; return early
with no work when none remain; if some remaining file exceeds maxFileSize,
toast the size limit and return [] (before any block is created); otherwise
create an image block per file. The image service is assumed present. -/
def addImages (files : List IngestFile) (maxFileSize : Nat) : AddImagesResult :=
  let imageFiles := files.filter (fun f => strStartsWith f.mimeType "image/")
  if imageFiles.isEmpty then
    { toastShown := false, ingested := [] }
  else if imageFiles.any (fun f => decide (maxFileSize < f.size)) then
    { toastShown := true, ingested := [] }
  else
    { toastShown := false, ingested := imageFiles }

/-! ## createWorkspace (src/unnamed/part_007 and workspace.ts) -/

/-- What a caller-supplied createWorkspace initializer did by the time it
returned or threw: blob records written through the provided blob storage
handle, doc records pushed through the provided doc storage handle, update
payloads applied to the collection's root doc, the collection's subdocuments
(guid paired with the payloads applied to it), and whether the initializer
ended by throwing. -/
structure InitializerRun where
  blobWrites : List BlobRecord
  docWrites : List DocRecord
  rootUpdates : List (List Nat)
  subdocUpdates : List (String × List (List Nat))
  throws : Bool
  deriving DecidableEq

/-- The IndexedDB-backed stores allocated for a new workspace id. -/
structure IdbState where
  docStore : List DocRecord
  blobStore : List BlobRecord
  deriving DecidableEq

/-- A pair of empty stores, the state before anything is written. -/
def emptyIdb : IdbState :=
  { docStore := [], blobStore := [] }

/-- The doc records the provider itself pushes after a successful initializer:
the encoded collection root under the workspace id, then every subdocument's
encoded state under its guid. -/
def providerDocPushes (workspaceId : String) (run : InitializerRun) : List DocRecord :=
  ⟨workspaceId, encodeStateAsUpdate run.rootUpdates⟩ ::
    run.subdocUpdates.map (fun s => ⟨s.1, encodeStateAsUpdate s.2⟩)

/-- Observable outcome of LocalWorkspaceFlavourProvider.createWorkspace. -/
structure LocalCreateResult where
  workspaceIds : List String
  idb : IdbState
  collectionDisposed : Bool
  notified : Bool
  result : Option WorkspaceMetadata
  deriving DecidableEq

/-- LocalWorkspaceFlavourProvider.createWorkspace: allocate a fresh id and
fresh IndexedDB stores, build a DocCollection, then inside try { run the
initializer; push the collection root and every subdocument to the doc store;
append the id to the local workspace id list; broadcast } finally
{ docCollection.dispose() }. A throwing initializer propagates after the
finally block; its own writes through the provided handles are already in the
stores. -/
def LocalWorkspaceFlavourProvider.createWorkspace (ids : List String)
    (newId : String) (run : InitializerRun) : LocalCreateResult :=
  let idbAfterInit : IdbState :=
    { docStore := run.docWrites, blobStore := run.blobWrites }
  if run.throws then
    { workspaceIds := ids, idb := idbAfterInit, collectionDisposed := true,
      notified := false, result := none }
  else
    { workspaceIds := ids ++ [newId],
      idb := { docStore := run.docWrites ++ providerDocPushes newId run,
               blobStore := run.blobWrites },
      collectionDisposed := true, notified := true,
      result := some { id := newId, flavour := "local" } }

/-- Observable outcome of CloudWorkspaceFlavourProvider.createWorkspace. -/
structure CloudCreateResult where
  idb : IdbState
  collectionDisposed : Bool
  revalidated : Bool
  result : Option WorkspaceMetadata
  deriving DecidableEq

/-- CloudWorkspaceFlavourProvider.createWorkspace: first create the workspace
remotely via createWorkspaceMutation (remoteCreatedId = none models that call
throwing, before any local store or collection exists); then allocate fresh
IndexedDB stores and a DocCollection for the returned id and inside try
{ run the initializer; push the collection root and every subdocument to the
doc store; revalidate and wait } finally { docCollection.dispose() }. -/
def CloudWorkspaceFlavourProvider.createWorkspace (serverId : String)
    (remoteCreatedId : Option String) (run : InitializerRun) : CloudCreateResult :=
  match remoteCreatedId with
  | none =>
      { idb := emptyIdb, collectionDisposed := false, revalidated := false,
        result := none }
  | some workspaceId =>
      let idbAfterInit : IdbState :=
        { docStore := run.docWrites, blobStore := run.blobWrites }
      if run.throws then
        { idb := idbAfterInit, collectionDisposed := true, revalidated := false,
          result := none }
      else
        { idb := { docStore := run.docWrites ++ providerDocPushes workspaceId run,
                   blobStore := run.blobWrites },
          collectionDisposed := true, revalidated := true,
          result := some { id := workspaceId, flavour := serverId } }

/-! ## Transform service (transform.ts) -/

/-- The local workspace handed to transformLocalToCloud: its id, flavour and
the guid of its docCollection's root doc. -/
structure LocalWorkspace where
  id : String
  flavour : String
  rootDocGuid : String
  deriving DecidableEq

/-- The environment a transform run reads and the fallible steps' outcomes:
the local doc storage (getDoc by doc id), the local blob storage (get by key),
the local blob list() keys, the subdocument guids the root update introduces
into the new collection, whether transformWorkspaceDBLocalToCloud succeeds and
the doc records it pushes, the keys for which the new blob storage's set
throws, and the id assigned by the remote createWorkspaceMutation (none when
that call throws). -/
structure TransformEnv where
  localDocs : List (String × List Nat)
  localBlobs : List (String × BlobRecord)
  blobListKeys : List String
  rootSubdocGuids : List String
  dbTransformOk : Bool
  dbTransformWrites : List DocRecord
  blobSetFailures : List String
  remoteCreatedId : Option String
  deriving DecidableEq

/-- The blob-copy loop of the transform initializer: for each listed key, get
it from the local blob storage; a null get is skipped; a present blob is set
into the new store, and a throwing set aborts the loop (earlier writes stay).
Returns the records written and whether the loop completed. -/
def copyBlobs (env : TransformEnv) : List String → List BlobRecord × Bool
  | [] => ([], true)
  | k :: rest =>
    match lookupAssoc env.localBlobs k with
    | none => copyBlobs env rest
    | some b =>
      if env.blobSetFailures.contains k then
        ([], false)
      else
        let r := copyBlobs env rest
        (b :: r.1, r.2)

/-- The initializer transformLocalToCloud passes to factory.create: apply the
local root doc's bytes to the new collection's root when present (a null
getDoc is skipped); for every subdocument of the (now populated) collection,
apply its local bytes when present; run the workspace-db transform; copy every
listed blob. It throws when the db transform throws or a blob set throws. -/
def transformInitializer (localWs : LocalWorkspace) (env : TransformEnv) :
    InitializerRun :=
  let rootBin := lookupAssoc env.localDocs localWs.rootDocGuid
  let rootUpdates := match rootBin with | some b => [b] | none => []
  let subdocGuids := match rootBin with | some _ => env.rootSubdocGuids | none => []
  let subdocUpdates := subdocGuids.map (fun g =>
    (g, match lookupAssoc env.localDocs g with | some b => [b] | none => []))
  if env.dbTransformOk then
    let copied := copyBlobs env env.blobListKeys
    { blobWrites := copied.1, docWrites := env.dbTransformWrites,
      rootUpdates := rootUpdates, subdocUpdates := subdocUpdates,
      throws := !copied.2 }
  else
    { blobWrites := [], docWrites := [],
      rootUpdates := rootUpdates, subdocUpdates := subdocUpdates,
      throws := true }

/-- Errors transformLocalToCloud can propagate: the assertEquals precondition
on the source flavour, or a failure inside workspace creation (including the
initializer). -/
inductive TransformError
  | precondition
  | createFailed
  deriving DecidableEq

deriving instance DecidableEq for Except

/-- Observable outcome of one transformLocalToCloud run: the cloud creation's
outcome when it was reached, whether deleteWorkspace ran on the local
original, the local workspace id list after the run, and the value returned
or error thrown. -/
structure TransformResult where
  createRun : Option CloudCreateResult
  deletedLocal : Bool
  localIds : List String
  result : Except TransformError WorkspaceMetadata
  deriving DecidableEq

/-- transformLocalToCloud: assertEquals(local.flavour, 'local') first; then
factory.create with the transform initializer (modelled via the cloud flavour
provider); a creation failure propagates; only on success is
destroy.deleteWorkspace(local.meta) awaited (which removes the id from the
local workspace id list) and the new metadata returned. -/
def transformLocalToCloud (localWs : LocalWorkspace) (localIds : List String)
    (serverId : String) (env : TransformEnv) : TransformResult :=
  if localWs.flavour = "local" then
    let run := transformInitializer localWs env
    let cr := CloudWorkspaceFlavourProvider.createWorkspace serverId
      env.remoteCreatedId run
    match cr.result with
    | none =>
        { createRun := some cr, deletedLocal := false, localIds := localIds,
          result := .error .createFailed }
    | some m =>
        { createRun := some cr, deletedLocal := true,
          localIds := localIds.filter (fun i => !(i == localWs.id)),
          result := .ok m }
  else
    { createRun := none, deletedLocal := false, localIds := localIds,
      result := .error .precondition }

/-! ## Cloud revalidation commit (workspace.ts, revalidate) -/

/-- An {id, initialized} item of the getWorkspacesQuery response. -/
structure CloudListItem where
  id : String
  initialized : Bool
  deriving DecidableEq

/-- A cloud workspace metadata entry as emitted by the revalidation pipeline:
{id, flavour: server id, initialized}. -/
structure CloudWorkspaceMeta where
  id : String
  flavour : String
  initialized : Bool
  deriving DecidableEq

/-- getCloudWorkspaceCacheKey: 'cloud-workspace:' for the affine-cloud server
(backward compatibility), 'selfhosted-workspace-<serverId>:' otherwise. -/
def getCloudWorkspaceCacheKey (serverId : String) : String :=
  if serverId = "affine-cloud" then "cloud-workspace:"
  else "selfhosted-workspace-" ++ serverId ++ ":"

/-- The comparator of the revalidation sort: a.id.localeCompare(b.id),
modelled by the total order on id strings. -/
def wsIdLe (a b : CloudWorkspaceMeta) : Prop :=
  a.id ≤ b.id

instance : DecidableRel wsIdLe := fun a b =>
  decidable_of_iff (¬ b.id.toList < a.id.toList)
    (by rw [← String.lt_iff_toList_lt, not_lt]; exact Iff.rfl)

instance : IsTotal CloudWorkspaceMeta wsIdLe :=
  ⟨fun a b => le_total a.id b.id⟩

instance : IsTrans CloudWorkspaceMeta wsIdLe :=
  ⟨fun _ _ _ h h2 => le_trans h h2⟩

/-- Observable outcome of the success branch of one revalidation refresh: the
process-wide cache after globalState.set, and the list pushed to workspaces$
(none when nothing was emitted). -/
structure RevalidateCommit where
  cache : List (String × List CloudWorkspaceMeta)
  emitted : Option (List CloudWorkspaceMeta)
  deriving DecidableEq

/-- The mergeMap body of revalidate on non-null data: map the fetched items to
metadata entries carrying the server id as flavour, sort by id, persist the
sorted list under getCloudWorkspaceCacheKey(serverId) + accountId, and push it
to workspaces$ only when it is not structurally equal (lodash isEqual) to the
currently held list. JS Array.prototype.sort with this comparator is stable,
as is insertionSort. -/
def revalidateCommit (serverId accountId : String) (fetched : List CloudListItem)
    (cache : List (String × List CloudWorkspaceMeta))
    (current : List CloudWorkspaceMeta) : RevalidateCommit :=
  let ws := fetched.map (fun it =>
    { id := it.id, flavour := serverId, initialized := it.initialized :
      CloudWorkspaceMeta })
  let sorted := List.insertionSort wsIdLe ws
  { cache := setAssoc cache (getCloudWorkspaceCacheKey serverId ++ accountId) sorted,
    emitted := if current = sorted then none else some sorted }

/-- A concrete migration environment: the root doc is present with one
present subdocument (sub1) and one missing one (sub2), one present blob (b1)
and one listed-but-missing blob key; the db transform and the remote creation
succeed and no blob set fails. -/
def sampleTransformEnv : TransformEnv :=
  { localDocs := [("root", [1, 2]), ("sub1", [3])]
    localBlobs := [("b1", ⟨"b1", [9], "image/png"⟩)]
    blobListKeys := ["b1", "missing"]
    rootSubdocGuids := ["sub1", "sub2"]
    dbTransformOk := true
    dbTransformWrites := [⟨"db1", [7]⟩]
    blobSetFailures := []
    remoteCreatedId := some "c1" }

/-! ## Helper lemmas -/

/-- Reading back the key just written by setAssoc yields the written value. -/
theorem lookupAssoc_setAssoc {α : Type} (l : List (String × α)) (k : String) (v : α) :
    lookupAssoc (setAssoc l k v) k = some v := by
  simp [lookupAssoc, setAssoc, List.find?_cons]

/-- A successful lookupAssoc read comes from a pair of the list. -/
theorem lookupAssoc_eq_some_mem {α : Type} {l : List (String × α)} {k : String}
    {v : α} (h : lookupAssoc l k = some v) : (k, v) ∈ l := by
  unfold lookupAssoc at h
  cases hf : l.find? (fun p => p.1 == k) with
  | none => rw [hf] at h; cases h
  | some p =>
    rw [hf] at h
    have hk : p.1 = k := by simpa using List.find?_some hf
    have hm := List.mem_of_find?_eq_some hf
    obtain ⟨p1, p2⟩ := p
    cases h
    cases hk
    exact hm

/-- The cloud createWorkspace returns metadata only when the remote creation
yielded an id and the initializer did not throw; the metadata carries that id
and the server id as flavour. -/
theorem cloudCreateWorkspace_result_some {serverId : String}
    {remoteCreatedId : Option String} {run : InitializerRun} {m : WorkspaceMetadata}
    (h : (CloudWorkspaceFlavourProvider.createWorkspace serverId remoteCreatedId
      run).result = some m) :
    run.throws = false ∧ remoteCreatedId = some m.id ∧ m.flavour = serverId := by
  unfold CloudWorkspaceFlavourProvider.createWorkspace at h
  cases remoteCreatedId with
  | none => cases h
  | some wid =>
    by_cases ht : run.throws
    · simp [ht] at h
    · simp [ht] at h
      cases h
      simp [Bool.eq_false_iff.mpr ht]

/-- When no blob set fails, the copy loop completes and writes exactly the
listed keys' present records, in list order. -/
theorem copyBlobs_no_failures (env : TransformEnv)
    (h : env.blobSetFailures = []) (ks : List String) :
    copyBlobs env ks = (ks.filterMap (lookupAssoc env.localBlobs), true) := by
  induction ks with
  | nil => rfl
  | cons k rest ih =>
    unfold copyBlobs
    cases hb : lookupAssoc env.localBlobs k with
    | none => simpa [hb, List.filterMap_cons] using ih
    | some b => simp [hb, h, List.filterMap_cons, ih]

/-- Every pair of the built registry binds a class name to the implementation
carrying exactly that name, and only registered implementations occur. -/
theorem availableStorageImplementations_pairs :
    ∀ p ∈ availableStorageImplementations,
      p.2.className = p.1 ∧ p.2 ∈ storages := by decide

/-! ## Claim theorems -/

/-- C3: for every WorkspaceEngine, accessing doc, blob or awareness while the
worker handle has not been constructed throws the "not initialized" error, and
any start() call that follows an earlier start() call (whatever that call's
openWorker outcome was) throws the "already started" error. -/
theorem c3_engine_accessors_guard_and_double_start :
    (∀ e : WorkspaceEngine, e.worker = none →
      e.doc = .error .notInitialized ∧ e.blob = .error .notInitialized ∧
        e.awareness = .error .notInitialized) ∧
    (∀ (e : WorkspaceEngine) (r r2 : Option WorkerClient),
      ((e.start r).1.start r2).2 = some .alreadyStarted) := by
  constructor
  · intro e h
    simp [WorkspaceEngine.doc, WorkspaceEngine.blob, WorkspaceEngine.awareness, h]
  · intro e r r2
    by_cases h : e.started
    · simp [WorkspaceEngine.start, h]
    · cases r <;> simp [WorkspaceEngine.start, h]

/-- Witness for C3 at a fresh engine and a concrete worker handle. -/
theorem c3_witness :
    WorkspaceEngine.new.doc = .error .notInitialized ∧
    ((WorkspaceEngine.new.start (some ⟨0, 0, 0⟩)).1.start
      (some ⟨1, 1, 1⟩)).2 = some .alreadyStarted :=
  ⟨(c3_engine_accessors_guard_and_double_start.1 WorkspaceEngine.new rfl).1,
   c3_engine_accessors_guard_and_double_start.2 WorkspaceEngine.new
     (some ⟨0, 0, 0⟩) (some ⟨1, 1, 1⟩)⟩

/-- C9: when openWorker throws inside start() on a fresh engine, the started
flag is already set but no worker handle exists, so every later start() throws
"already started" while doc, blob and awareness still throw "not initialized":
start is not atomic on error and the engine is permanently unusable. -/
theorem c9_engine_start_not_atomic_on_worker_error :
    (WorkspaceEngine.new.start none).2 = some .workerOpenFailed ∧
    (WorkspaceEngine.new.start none).1.started = true ∧
    (WorkspaceEngine.new.start none).1.worker = none ∧
    (∀ r, (WorkspaceEngine.new.start none).1.start r =
      ((WorkspaceEngine.new.start none).1, some .alreadyStarted)) ∧
    (WorkspaceEngine.new.start none).1.doc = .error .notInitialized ∧
    (WorkspaceEngine.new.start none).1.blob = .error .notInitialized ∧
    (WorkspaceEngine.new.start none).1.awareness = .error .notInitialized := by
  refine ⟨rfl, rfl, rfl, ?_, rfl, rfl, rfl⟩
  intro r
  cases r <;> rfl

/-- C5: CloudBlobStorage.get maps a 404-equivalent status to null rather than
an exception, and the only errors it propagates are genuine I/O failures (the
connection's transport failure or a failed body read), never absence. -/
theorem c5_cloud_blob_get_absence_is_soft (key : String) (now : Nat)
    (fetched : HttpFetchResult) :
    (fetched = .notFoundStatus → CloudBlobStorage.get key now fetched = .ok none) ∧
    (∀ e, CloudBlobStorage.get key now fetched = .error e →
      fetched = .transportFailure ∨ fetched = .okUnreadableBody) := by
  cases fetched <;> simp [CloudBlobStorage.get]

/-- Witness for C5: a 404 response on a concrete key yields null, and a
concrete transport failure is one of the two genuine I/O failures. -/
theorem c5_witness :
    CloudBlobStorage.get "b1" 7 .notFoundStatus = .ok none ∧
    (HttpFetchResult.transportFailure = .transportFailure ∨
      HttpFetchResult.transportFailure = .okUnreadableBody) :=
  ⟨(c5_cloud_blob_get_absence_is_soft "b1" 7 .notFoundStatus).1 rfl,
   (c5_cloud_blob_get_absence_is_soft "b1" 7 .transportFailure).2 .transport rfl⟩

/-- C7 counterexample: "SqliteDocStorage" is not a registered class name, yet
resolving it does not raise any configuration error — the registry read
silently yields the JS undefined value, an unusable result. -/
theorem c7_counterexample :
    (∀ impl ∈ storages, impl.className ≠ "SqliteDocStorage") ∧
    getAvailableStorageImplementations "SqliteDocStorage" = .undefinedResult := by
  decide

/-- C7 amended: resolution uses exact name match — a resolved implementation
carries exactly the requested name and every registered implementation is
found under its own name — but a name that is not registered silently resolves
to the undefined value instead of raising a configuration error. -/
theorem c7_registry_exact_match_unknown_is_silent_undefined :
    (∀ name impl, getAvailableStorageImplementations name = .resolved impl →
      impl.className = name ∧ impl ∈ storages) ∧
    (∀ impl ∈ storages,
      getAvailableStorageImplementations impl.className = .resolved impl) ∧
    (∀ name, (∀ impl ∈ storages, impl.className ≠ name) →
      getAvailableStorageImplementations name = .undefinedResult) := by
  refine ⟨?_, by decide, ?_⟩
  · intro name impl h
    unfold getAvailableStorageImplementations at h
    cases hl : lookupAssoc availableStorageImplementations name with
    | none => rw [hl] at h; cases h
    | some i =>
      rw [hl] at h
      cases h
      have := availableStorageImplementations_pairs _ (lookupAssoc_eq_some_mem hl)
      exact ⟨this.1, this.2⟩
  · intro name h
    unfold getAvailableStorageImplementations
    cases hl : lookupAssoc availableStorageImplementations name with
    | none => rfl
    | some i =>
      have hp := availableStorageImplementations_pairs _ (lookupAssoc_eq_some_mem hl)
      exact absurd hp.1 (h i hp.2)

/-- Witness for C7 amended: a registered name resolves to its implementation
and a concrete unregistered name resolves to undefined. -/
theorem c7_witness :
    getAvailableStorageImplementations "IndexedDBDocStorage" =
      .resolved .IndexedDBDocStorage ∧
    getAvailableStorageImplementations "SqliteBlobStorage" = .undefinedResult :=
  ⟨c7_registry_exact_match_unknown_is_silent_undefined.2.1 .IndexedDBDocStorage
     (by decide),
   c7_registry_exact_match_unknown_is_silent_undefined.2.2 "SqliteBlobStorage"
     (by decide)⟩

/-- C6 counterexample: a batch with an in-limit image file ("small.png", 1
byte) and one oversized image file ("big.png", 10 bytes, limit 5) shows the
toast but ingests nothing — the in-limit file is not ingested, so only-the-
offending-item abortion fails on the code (the whole batch is aborted). -/
theorem c6_counterexample :
    (addImages [⟨"small.png", "image/png", 1⟩, ⟨"big.png", "image/png", 10⟩]
      5).toastShown = true ∧
    (⟨"small.png", "image/png", 1⟩ : IngestFile) ∉
      (addImages [⟨"small.png", "image/png", 1⟩, ⟨"big.png", "image/png", 10⟩]
        5).ingested ∧
    (addImages [⟨"small.png", "image/png", 1⟩, ⟨"big.png", "image/png", 10⟩]
      5).ingested = [] := by
  decide

/-- C6 amended: whenever some image file of the batch exceeds the configured
maximum file size, the user-facing notice is produced and the whole batch is
aborted: no file of the batch is ingested, including in-limit ones. -/
theorem c6_oversize_file_aborts_whole_batch (files : List IngestFile)
    (maxFileSize : Nat)
    (h : ∃ f ∈ files, strStartsWith f.mimeType "image/" = true ∧
      maxFileSize < f.size) :
    (addImages files maxFileSize).toastShown = true ∧
    (addImages files maxFileSize).ingested = [] := by
  obtain ⟨f, hf, him, hsz⟩ := h
  have hmem : f ∈ files.filter (fun f => strStartsWith f.mimeType "image/") :=
    List.mem_filter.mpr ⟨hf, him⟩
  have hne : (files.filter (fun f => strStartsWith f.mimeType "image/")).isEmpty
      = false := by
    rcases hfe : (files.filter (fun f => strStartsWith f.mimeType "image/")) with
      _ | ⟨a, rest⟩
    · rw [hfe] at hmem; cases hmem
    · rw [hfe]; rfl
  have hany : (files.filter (fun f => strStartsWith f.mimeType "image/")).any
      (fun f => decide (maxFileSize < f.size)) = true :=
    List.any_eq_true.mpr ⟨f, hmem, by simpa using hsz⟩
  simp [addImages, hne, hany]

/-- Witness for C6 amended at the concrete two-file batch. -/
theorem c6_witness :
    (addImages [⟨"small.png", "image/png", 1⟩, ⟨"big.png", "image/png", 10⟩]
      5).toastShown = true ∧
    (addImages [⟨"small.png", "image/png", 1⟩, ⟨"big.png", "image/png", 10⟩]
      5).ingested = [] :=
  c6_oversize_file_aborts_whole_batch
    [⟨"small.png", "image/png", 1⟩, ⟨"big.png", "image/png", 10⟩] 5
    ⟨⟨"big.png", "image/png", 10⟩, by decide, by decide, by decide⟩

/-- C2 counterexample: an initializer that writes one blob through the
provided blob storage handle and then throws leaves that blob persisted in
the new workspace's IndexedDB blob store — local backend state survives the
error path, refuting "no orphaned local backend state remains". -/
theorem c2_counterexample :
    ¬ (∀ (ids : List String) (newId : String) (run : InitializerRun),
        run.throws = true →
        (LocalWorkspaceFlavourProvider.createWorkspace ids newId run).result = none ∧
        (LocalWorkspaceFlavourProvider.createWorkspace ids newId run).workspaceIds = ids ∧
        (LocalWorkspaceFlavourProvider.createWorkspace ids newId run).collectionDisposed = true ∧
        (LocalWorkspaceFlavourProvider.createWorkspace ids newId run).idb = emptyIdb) := by
  intro h
  have := (h [] "w1" ⟨[⟨"b1", [1, 2, 3], "image/png"⟩], [], [], [], true⟩ rfl).2.2.2
  exact absurd this (by decide)

/-- C2 amended: when the initializer throws, neither flavour persists
workspace metadata — the local flavour does not add the id to the workspace
id list or broadcast, the cloud flavour does not revalidate, neither returns
metadata, neither pushes its own doc snapshot, and both dispose the doc
collection — but the doc and blob writes the initializer itself made through
the provided storage handles are not rolled back: exactly they remain in the
new workspace's local stores. -/
theorem c2_create_with_throwing_initializer (ids : List String)
    (newId serverId wid : String) (run : InitializerRun)
    (h : run.throws = true) :
    (LocalWorkspaceFlavourProvider.createWorkspace ids newId run =
      { workspaceIds := ids,
        idb := { docStore := run.docWrites, blobStore := run.blobWrites },
        collectionDisposed := true, notified := false, result := none }) ∧
    (CloudWorkspaceFlavourProvider.createWorkspace serverId (some wid) run =
      { idb := { docStore := run.docWrites, blobStore := run.blobWrites },
        collectionDisposed := true, revalidated := false, result := none }) := by
  constructor
  · simp [LocalWorkspaceFlavourProvider.createWorkspace, h]
  · simp [CloudWorkspaceFlavourProvider.createWorkspace, h]

/-- Witness for C2 amended at a concrete throwing initializer run. -/
theorem c2_witness :
    (LocalWorkspaceFlavourProvider.createWorkspace ["w0"] "w1"
        ⟨[⟨"b1", [1, 2, 3], "image/png"⟩], [], [], [], true⟩ =
      { workspaceIds := ["w0"],
        idb := { docStore := [],
                 blobStore := [⟨"b1", [1, 2, 3], "image/png"⟩] },
        collectionDisposed := true, notified := false, result := none }) ∧
    (CloudWorkspaceFlavourProvider.createWorkspace "affine-cloud" (some "c1")
        ⟨[⟨"b1", [1, 2, 3], "image/png"⟩], [], [], [], true⟩ =
      { idb := { docStore := [],
                 blobStore := [⟨"b1", [1, 2, 3], "image/png"⟩] },
        collectionDisposed := true, revalidated := false, result := none }) :=
  c2_create_with_throwing_initializer ["w0"] "w1" "affine-cloud" "c1"
    ⟨[⟨"b1", [1, 2, 3], "image/png"⟩], [], [], [], true⟩ rfl

/-- C1: the local original is deleted only when the cloud workspace creation
— including the seeding initializer — completed successfully and returned
metadata; whenever the initializer throws (and whenever creation fails at
all), deleteWorkspace on the local original never runs and the local
workspace id list is untouched. -/
theorem c1_transform_deletes_local_only_after_successful_creation
    (localWs : LocalWorkspace) (ids : List String) (serverId : String)
    (env : TransformEnv) :
    ((transformLocalToCloud localWs ids serverId env).deletedLocal = true →
      (transformInitializer localWs env).throws = false ∧
      ∃ m, (transformLocalToCloud localWs ids serverId env).result = .ok m) ∧
    ((transformInitializer localWs env).throws = true →
      (transformLocalToCloud localWs ids serverId env).deletedLocal = false ∧
      (transformLocalToCloud localWs ids serverId env).localIds = ids) := by
  unfold transformLocalToCloud
  by_cases hfl : localWs.flavour = "local"
  · simp only [hfl, if_pos]
    cases hcr : (CloudWorkspaceFlavourProvider.createWorkspace serverId
        env.remoteCreatedId (transformInitializer localWs env)).result with
    | none => simp [hcr]
    | some m =>
      have := cloudCreateWorkspace_result_some hcr
      simp [hcr, this.1]
  · simp [hfl]

/-- Witness for C1 at a concrete run whose db-transform step throws: the
local original survives. -/
theorem c1_witness :
    (transformInitializer ⟨"w1", "local", "root"⟩
      { localDocs := [("root", [1, 2])], localBlobs := [],
        blobListKeys := [], rootSubdocGuids := [],
        dbTransformOk := false, dbTransformWrites := [],
        blobSetFailures := [], remoteCreatedId := some "c1" }).throws = true ∧
    (transformLocalToCloud ⟨"w1", "local", "root"⟩ ["w0", "w1"] "affine-cloud"
      { localDocs := [("root", [1, 2])], localBlobs := [],
        blobListKeys := [], rootSubdocGuids := [],
        dbTransformOk := false, dbTransformWrites := [],
        blobSetFailures := [], remoteCreatedId := some "c1" }).deletedLocal
      = false ∧
    (transformLocalToCloud ⟨"w1", "local", "root"⟩ ["w0", "w1"] "affine-cloud"
      { localDocs := [("root", [1, 2])], localBlobs := [],
        blobListKeys := [], rootSubdocGuids := [],
        dbTransformOk := false, dbTransformWrites := [],
        blobSetFailures := [], remoteCreatedId := some "c1" }).localIds
      = ["w0", "w1"] := by
  refine ⟨by decide, ?_⟩
  have := (c1_transform_deletes_local_only_after_successful_creation
    ⟨"w1", "local", "root"⟩ ["w0", "w1"] "affine-cloud"
    { localDocs := [("root", [1, 2])], localBlobs := [],
      blobListKeys := [], rootSubdocGuids := [],
      dbTransformOk := false, dbTransformWrites := [],
      blobSetFailures := [], remoteCreatedId := some "c1" }).2 (by decide)
  exact this

/-- C8: a source workspace whose flavour is not exactly "local" makes
transformLocalToCloud fail with the precondition error before any migration
step: no creation is attempted, nothing is deleted, the id list is untouched,
and the error is returned to the caller (no retry path exists). -/
theorem c8_transform_requires_local_flavour (localWs : LocalWorkspace)
    (ids : List String) (serverId : String) (env : TransformEnv)
    (h : localWs.flavour ≠ "local") :
    transformLocalToCloud localWs ids serverId env =
      { createRun := none, deletedLocal := false, localIds := ids,
        result := .error .precondition } := by
  simp [transformLocalToCloud, h]

/-- Witness for C8 at a cloud-flavoured source workspace. -/
theorem c8_witness :
    transformLocalToCloud ⟨"w1", "affine-cloud", "root"⟩ ["w1"] "affine-cloud"
      { localDocs := [], localBlobs := [], blobListKeys := [],
        rootSubdocGuids := [], dbTransformOk := true, dbTransformWrites := [],
        blobSetFailures := [], remoteCreatedId := some "c1" } =
      { createRun := none, deletedLocal := false, localIds := ["w1"],
        result := .error .precondition } :=
  c8_transform_requires_local_flavour ⟨"w1", "affine-cloud", "root"⟩ ["w1"]
    "affine-cloud"
    { localDocs := [], localBlobs := [], blobListKeys := [],
      rootSubdocGuids := [], dbTransformOk := true, dbTransformWrites := [],
      blobSetFailures := [], remoteCreatedId := some "c1" }
    (by decide)

/-- C10: when the db transform, the blob sets and the remote creation all
succeed, a missing local root binary, missing subdocument binaries and
missing listed blobs are silently skipped — no update is applied for them and
exactly the present blobs are copied — the initializer does not throw, the
migration returns the new metadata, and the local original is still deleted. -/
theorem c10_transform_skips_missing_docs_and_blobs (localWs : LocalWorkspace)
    (ids : List String) (serverId wid : String) (env : TransformEnv)
    (hfl : localWs.flavour = "local")
    (hdb : env.dbTransformOk = true)
    (hset : env.blobSetFailures = [])
    (hrc : env.remoteCreatedId = some wid) :
    (transformInitializer localWs env).throws = false ∧
    (transformLocalToCloud localWs ids serverId env).result = .ok ⟨wid, serverId⟩ ∧
    (transformLocalToCloud localWs ids serverId env).deletedLocal = true ∧
    (transformLocalToCloud localWs ids serverId env).localIds =
      ids.filter (fun i => !(i == localWs.id)) ∧
    (lookupAssoc env.localDocs localWs.rootDocGuid = none →
      (transformInitializer localWs env).rootUpdates = []) ∧
    (∀ g bins, (g, bins) ∈ (transformInitializer localWs env).subdocUpdates →
      lookupAssoc env.localDocs g = none → bins = []) ∧
    (transformInitializer localWs env).blobWrites =
      env.blobListKeys.filterMap (lookupAssoc env.localBlobs) := by
  have hcopy := copyBlobs_no_failures env hset env.blobListKeys
  have hth : (transformInitializer localWs env).throws = false := by
    simp [transformInitializer, hdb, hcopy]
  have hcr : (CloudWorkspaceFlavourProvider.createWorkspace serverId
      env.remoteCreatedId (transformInitializer localWs env)).result =
      some ⟨wid, serverId⟩ := by
    rw [hrc]
    simp [CloudWorkspaceFlavourProvider.createWorkspace, hth]
  have htr : (transformLocalToCloud localWs ids serverId env).result =
        .ok ⟨wid, serverId⟩ ∧
      (transformLocalToCloud localWs ids serverId env).deletedLocal = true ∧
      (transformLocalToCloud localWs ids serverId env).localIds =
        ids.filter (fun i => !(i == localWs.id)) := by
    simp only [transformLocalToCloud, hfl, if_true, if_pos]
    rw [hcr]
    exact ⟨rfl, rfl, rfl⟩
  refine ⟨hth, htr.1, htr.2.1, htr.2.2, ?_, ?_, ?_⟩
  · intro hnone
    simp [transformInitializer, hdb, hnone]
  · intro g bins hmem hnone
    simp only [transformInitializer, hdb, if_true] at hmem
    rcases List.mem_map.mp hmem with ⟨a, _, heq⟩
    injection heq with h1 h2
    subst h1
    rw [hnone] at h2
    simpa using h2.symm
  · simp [transformInitializer, hdb, hcopy]

/-- Witness for C10 at sampleTransformEnv: the migration still deletes the
local original although sub2 and the listed blob key "missing" are absent,
and only the present blob b1 is copied. -/
theorem c10_witness :
    (transformLocalToCloud ⟨"w1", "local", "root"⟩ ["w0", "w1"] "affine-cloud"
      sampleTransformEnv).deletedLocal = true ∧
    (transformInitializer ⟨"w1", "local", "root"⟩ sampleTransformEnv).blobWrites
      = [⟨"b1", [9], "image/png"⟩] := by
  have h := c10_transform_skips_missing_docs_and_blobs ⟨"w1", "local", "root"⟩
    ["w0", "w1"] "affine-cloud" "c1" sampleTransformEnv rfl rfl rfl rfl
  refine ⟨h.2.2.1, ?_⟩
  rw [h.2.2.2.2.2.2]
  decide

/-- C4: a successful revalidation refresh sorts the fetched workspace list by
workspace id (the result is an id-ordered permutation of the fetched
entries), persists the sorted list in the process-wide cache under the key
built from the flavour scope and the account id, and pushes it to workspaces$
exactly when it differs structurally from the currently held list. -/
theorem c4_revalidate_sorts_persists_and_emits_on_change
    (serverId accountId : String) (fetched : List CloudListItem)
    (cache : List (String × List CloudWorkspaceMeta))
    (current : List CloudWorkspaceMeta) :
    List.Sorted wsIdLe (List.insertionSort wsIdLe (fetched.map (fun it =>
      { id := it.id, flavour := serverId, initialized := it.initialized }))) ∧
    List.Perm
      (List.insertionSort wsIdLe (fetched.map (fun it =>
        { id := it.id, flavour := serverId, initialized := it.initialized })))
      (fetched.map (fun it =>
        { id := it.id, flavour := serverId, initialized := it.initialized })) ∧
    lookupAssoc (revalidateCommit serverId accountId fetched cache current).cache
        (getCloudWorkspaceCacheKey serverId ++ accountId) =
      some (List.insertionSort wsIdLe (fetched.map (fun it =>
        { id := it.id, flavour := serverId, initialized := it.initialized }))) ∧
    (revalidateCommit serverId accountId fetched cache current).emitted =
      (if current = List.insertionSort wsIdLe (fetched.map (fun it =>
          { id := it.id, flavour := serverId, initialized := it.initialized }))
        then none
        else some (List.insertionSort wsIdLe (fetched.map (fun it =>
          { id := it.id, flavour := serverId, initialized := it.initialized })))) :=
  ⟨List.sorted_insertionSort wsIdLe _,
   List.perm_insertionSort wsIdLe _,
   lookupAssoc_setAssoc _ _ _,
   rfl⟩
